import Mathlib

/-!
Shallow embedding of the device-state coordination engine of the
`philips_airpurifier_coap` integration, translated from
`custom_components/philips_airpurifier_coap/coordinator.py`,
`philips.py` and `__init__.py`, together with proofs of the spec's
claims about it.

Status snapshots are Python dicts from string protocol keys to string or
integer values; they are embedded as insertion-ordered association lists
with Python-dict update semantics.  Asynchronous tasks are embedded as a
state machine: task fields hold the task identifier the coordinator
stores, and ghost ledgers (`obsActive`, `recActive`) record which created
tasks are still active (created, neither cancelled nor finished), so that
claims about concurrent task counts become statements about list lengths.
-/

/-- A device-status value: Python strings or integers. -/
inductive Val
  | s (v : String)
  | i (v : Int)
  deriving DecidableEq, Repr

/-- A status snapshot: an insertion-ordered string-keyed mapping (Python dict). -/
abbrev Status := List (String × Val)

/-- Python `d[k]` / `d.get(k)`: first (unique) binding of `k`. -/
def dget (st : Status) (k : String) : Option Val :=
  match st with
  | [] => none
  | (k2, v) :: rest => if k2 = k then some v else dget rest k

/-- Python `d[k] = v`: update the binding in place if the key exists
(keeping insertion order), otherwise append it. -/
def dset (st : Status) (k : String) (v : Val) : Status :=
  match st with
  | [] => [(k, v)]
  | (k2, v2) :: rest => if k2 = k then (k, v) :: rest else (k2, v2) :: dset rest k v

/-- Python `d.update(patch)`: apply every binding of the patch in order. -/
def dupdate (st : Status) (patch : Status) : Status :=
  patch.foldl (fun s kv => dset s kv.1 kv.2) st

/-- Python `d.get(k)` for a generic string-keyed mapping. -/
def dlookup {α : Type} (l : List (String × α)) (k : String) : Option α :=
  match l with
  | [] => none
  | (k2, v) :: rest => if k2 = k then some v else dlookup rest k

/-- Modelled from the spec: `const.py` is not under `src/`; the spec (§4.4)
describes the missed-packet threshold as a tunable small integer with
default e.g. 3. -/
def MISSED_PACKAGE_COUNT : Nat := 3

/-- Modelled from the spec: the repository's `Timer` class (`timer.py`) is
not under `src/`; per the spec (§3), it is a restartable countdown with a
timeout duration, an auto-restart flag and a running/stopped state, whose
callback (configured at construction) is invoked on expiry. -/
structure Timer where
  timeout : Nat
  running : Bool
  autoRestart : Bool
  deriving DecidableEq, Repr

/-- Modelled from the spec: `Timer.reset` (re)arms the countdown, so the
timer is running afterwards. -/
def Timer.reset (t : Timer) : Timer :=
  { t with running := true }

/-- Modelled from the spec: `Timer.cancel` stops the countdown. -/
def Timer.cancel (t : Timer) : Timer :=
  { t with running := false }

/-- The coordinator state, from `Coordinator` in `coordinator.py`.

`task` is `self._task`, `reconnectTask` is `self._reconnect_task` (each the
identifier of the task object the field references, or `none`).
`obsActive` and `recActive` are ghost ledgers of the observation
respectively reconnect tasks that have been created and are still active
(neither cancelled nor finished); `nextTask` supplies fresh task
identifiers.  `clientOpen` abstracts the `CoAPClient` connection owned via
`self.client`. -/
structure Coordinator where
  status : Status
  listeners : List Nat
  task : Option Nat
  reconnectTask : Option Nat
  timerDisconnected : Timer
  clientOpen : Bool
  obsActive : List Nat
  recActive : List Nat
  nextTask : Nat
  deriving DecidableEq, Repr

/-- `Coordinator.__init__`: empty listener registry, no tasks, and the
disconnection timer built with `timeout = self._timeout * MISSED_PACKAGE_COUNT`,
`autostart=False` (hence not running) and `auto_restart` set to `True`
right after construction. -/
def initialCoordinator (status : Status) : Coordinator where
  status := status
  listeners := []
  task := none
  reconnectTask := none
  timerDisconnected := { timeout := 60 * MISSED_PACKAGE_COUNT, running := false, autoRestart := true }
  clientOpen := true
  obsActive := []
  recActive := []
  nextTask := 0

/-- `Coordinator._start_observing`: cancel the current observation task if
any, then create and store a new one.  The trailing
`self._timer_disconnected.reset()` is commented out in the source, so the
timer is not touched. -/
def startObserving (c : Coordinator) : Coordinator :=
  let c1 :=
    match c.task with
    | some t => { c with task := none, obsActive := c.obsActive.erase t }
    | none => c
  { c1 with
    task := some c1.nextTask
    obsActive := c1.obsActive ++ [c1.nextTask]
    nextTask := c1.nextTask + 1 }

/-- `Coordinator.async_add_listener`: remember whether the registry was
empty, append the callback, and start observing if it was the first. -/
def asyncAddListener (c : Coordinator) (cb : Nat) : Coordinator :=
  let startObs := c.listeners.isEmpty
  let c1 := { c with listeners := c.listeners ++ [cb] }
  if startObs then startObserving c1 else c1

/-- `Coordinator.async_remove_listener`: `self._listeners.remove(cb)`
(Python `list.remove` raises `ValueError` when the element is absent,
leaving the list unchanged and skipping the rest of the method), then if
the registry became empty and a task is stored, cancel it and clear the
field. -/
def asyncRemoveListener (c : Coordinator) (cb : Nat) : Except String Coordinator :=
  if c.listeners.contains cb then
    let c1 := { c with listeners := c.listeners.erase cb }
    if c1.listeners.isEmpty then
      match c1.task with
      | some t => .ok { c1 with task := none, obsActive := c1.obsActive.erase t }
      | none => .ok c1
    else
      .ok c1
  else
    .error "ValueError"

/-- The fan-out loop in `Coordinator._async_observe_status`:
`for update_callback in self._listeners: update_callback()`.
`raises cb` says whether the callback raises when invoked.  Returns the
trace of invocations (each paired with the status visible at that moment)
and whether an exception escaped the loop: the body has no exception
handling, so a raising callback aborts the fan-out. -/
def fanOut (raises : Nat → Bool) (status : Status) :
    List Nat → List (Nat × Status) × Bool
  | [] => ([], false)
  | cb :: rest =>
    if raises cb then
      ([(cb, status)], true)
    else
      let r := fanOut raises status rest
      ((cb, status) :: r.1, r.2)

/-- One iteration of the `async for` body in
`Coordinator._async_observe_status`: store the received snapshot
(`self.status = status`; the `self._timer_disconnected.reset()` on the next
line is commented out in the source), then invoke the registered listeners
in order.  An exception escaping the fan-out terminates the observation
task (it leaves the ghost ledger; the `self._task` field is not cleared by
a dying task). -/
def observeStep (raises : Nat → Bool) (c : Coordinator) (snap : Status) :
    Coordinator × List (Nat × Status) × Bool :=
  let c1 := { c with status := snap }
  let r := fanOut raises snap c1.listeners
  let c2 :=
    if r.2 then
      match c1.task with
      | some t => { c1 with obsActive := c1.obsActive.erase t }
      | none => c1
    else c1
  (c2, r.1, r.2)

/-- `Coordinator.reconnect` (the synchronous part): cancel the stored
reconnect task if any and clear the field, then create and store a new
reconnect task. -/
def reconnect (c : Coordinator) : Coordinator :=
  let c1 :=
    match c.reconnectTask with
    | some t => { c with reconnectTask := none, recActive := c.recActive.erase t }
    | none => c
  { c1 with
    reconnectTask := some c1.nextTask
    recActive := c1.recActive ++ [c1.nextTask]
    nextTask := c1.nextTask + 1 }

/-- The success path of `Coordinator._reconnect`: best-effort shutdown of
the old client, creation of a new client, `self._start_observing()`, and
then the reconnect task itself finishes (leaving `self._reconnect_task`
pointing at the completed task). -/
def reconnectBodySuccess (c : Coordinator) : Coordinator :=
  let c1 := startObserving { c with clientOpen := true }
  match c1.reconnectTask with
  | some t => { c1 with recActive := c1.recActive.erase t }
  | none => c1

/-- `Coordinator.shutdown`: cancel the stored reconnect task if any (the
field is not cleared in the source), cancel the disconnection timer, and
close the client.  `self._task` and `self._listeners` are not touched. -/
def shutdown (c : Coordinator) : Coordinator :=
  let c1 :=
    match c.reconnectTask with
    | some t => { c with recActive := c.recActive.erase t }
    | none => c
  { c1 with
    timerDisconnected := c1.timerDisconnected.cancel
    clientOpen := false }

/-- Outcome of a Device Client write (`CoAPClient.set_control_value` /
`set_control_values`), supplied by the external client. -/
inductive WriteResult
  | ok
  | fail
  deriving DecidableEq, Repr

/-- The slice of `PhilipsGenericCoAPFanBase` (`philips.py`) that issues
write commands: the power key and the on/off values carried by the class,
the collected preset-mode and speed tables, and the identifier under which
this entity's `_handle_coordinator_update` callback is registered with the
coordinator. -/
structure FanEntity where
  keyPower : String
  statePowerOn : Val
  statePowerOff : Val
  availablePresetModes : List (String × Status)
  availableSpeeds : List (String × Status)
  updateCallback : Nat
  deriving DecidableEq, Repr

/-- `PhilipsGenericCoAPFanBase.async_turn_off`: forward the write to the
client; on success set `self._device_status[self.KEY_PHILIPS_POWER] =
self.STATE_POWER_OFF` (the same dict object the coordinator's `status`
references) and call `self._handle_coordinator_update()` — which refreshes
only this entity.  A failing write raises out of the method before any
mutation.  The result carries the coordinator state and the trace of
update callbacks invoked. -/
def asyncTurnOff (w : WriteResult) (e : FanEntity) (c : Coordinator) :
    Except String (Coordinator × List Nat) :=
  match w with
  | .fail => .error "write failed"
  | .ok =>
    .ok ({ c with status := dset c.status e.keyPower e.statePowerOff },
         [e.updateCallback])

/-- `PhilipsGenericCoAPFanBase.async_set_preset_mode`: look the preset up
in the collected table; if the pattern is truthy (present and non-empty),
forward `set_control_values(data=status_pattern)`, on success
`self._device_status.update(status_pattern)` and refresh this entity. -/
def asyncSetPresetMode (w : WriteResult) (e : FanEntity) (c : Coordinator)
    (presetMode : String) : Except String (Coordinator × List Nat) :=
  match dlookup e.availablePresetModes presetMode with
  | some pat =>
    if pat.isEmpty then
      .ok (c, [])
    else
      match w with
      | .fail => .error "write failed"
      | .ok => .ok ({ c with status := dupdate c.status pat }, [e.updateCallback])
  | none => .ok (c, [])

/-- `PhilipsGenericCoAPFanBase.async_set_percentage`: percentage 0 turns
the fan off; otherwise the external
`percentage_to_ordered_list_item(self._speeds, percentage)` helper
(parameter `speedOf`) picks a speed, its pattern is looked up, and if
truthy the write is forwarded and this entity refreshed.  Unlike
`async_set_preset_mode`, the source does not apply the pattern to
`self._device_status`. -/
def asyncSetPercentage (w : WriteResult) (speedOf : Nat → String) (e : FanEntity)
    (c : Coordinator) (percentage : Nat) : Except String (Coordinator × List Nat) :=
  if percentage = 0 then
    asyncTurnOff w e c
  else
    match dlookup e.availableSpeeds (speedOf percentage) with
    | some pat =>
      if pat.isEmpty then
        .ok (c, [])
      else
        match w with
        | .fail => .error "write failed"
        | .ok => .ok (c, [e.updateCallback])
    | none => .ok (c, [])

/-- Python truthiness of the optional `preset_mode` argument: a non-empty
string. -/
def truthyOptStr (o : Option String) : Bool :=
  match o with
  | some p => !(p = "")
  | none => false

/-- Python truthiness of the optional `percentage` argument: non-zero. -/
def truthyOptNat (o : Option Nat) : Bool :=
  match o with
  | some n => !(n = 0)
  | none => false

/-- `PhilipsGenericCoAPFanBase.async_turn_on`: a truthy `preset_mode`
delegates to `async_set_preset_mode`; else a truthy `percentage` delegates
to `async_set_percentage`; else the power key is written on, and on
success mirrored into the cached snapshot before refreshing this
entity. -/
def asyncTurnOn (w : WriteResult) (speedOf : Nat → String) (e : FanEntity)
    (c : Coordinator) (percentage : Option Nat) (presetMode : Option String) :
    Except String (Coordinator × List Nat) :=
  if truthyOptStr presetMode then
    asyncSetPresetMode w e c (presetMode.getD "")
  else if truthyOptNat percentage then
    asyncSetPercentage w speedOf e c (percentage.getD 0)
  else
    match w with
    | .fail => .error "write failed"
    | .ok =>
      .ok ({ c with status := dset c.status e.keyPower e.statePowerOn },
           [e.updateCallback])

/-- The coordinator state a caller holds after a fan write command: on
success the returned state, on a raised error the caller's state is
untouched. -/
def fanOpState (c : Coordinator) (r : Except String (Coordinator × List Nat)) :
    Coordinator :=
  match r with
  | .ok p => p.1
  | .error _ => c

/-- The setup timeout applied around `CoAPClient.create(host)` in
`async_setup_entry` (`__init__.py`): `asyncio.wait_for(..., timeout=25)`. -/
def SETUP_TIMEOUT : Nat := 25

/-- The connection phase of `async_setup_entry` (`__init__.py`):
`CoAPClient.create(host)` wrapped in `asyncio.wait_for(..., timeout=25)`;
a `TimeoutError` is caught and re-raised as `ConfigEntryNotReady` to the
caller.  The input is how long client creation would take (`none` for
never completing); the output pairs the result with the number of creation
attempts the setup path makes (it performs a single attempt, no retry). -/
def asyncSetupEntryConnect (createDuration : Option Nat) : Except String Unit × Nat :=
  match createDuration with
  | some d => if d ≤ SETUP_TIMEOUT then (.ok (), 1) else (.error "ConfigEntryNotReady", 1)
  | none => (.error "ConfigEntryNotReady", 1)

/-- A subscription-registry call: `async_add_listener` or (via the handle
it returns) `async_remove_listener`. -/
inductive RegOp
  | add (cb : Nat)
  | remove (cb : Nat)
  deriving DecidableEq, Repr

/-- Apply one registry call.  A `remove` of an absent handle raises
`ValueError` out of the method; the raised exception leaves the
coordinator untouched. -/
def applyRegOp (c : Coordinator) : RegOp → Coordinator
  | .add cb => asyncAddListener c cb
  | .remove cb =>
    match asyncRemoveListener c cb with
    | .ok c1 => c1
    | .error _ => c

/-- Run a sequence of registry calls. -/
def runRegOps (c : Coordinator) (ops : List RegOp) : Coordinator :=
  ops.foldl applyRegOp c

/-- One step a coordinator instance can take: the operations of
`coordinator.py` plus the scheduler events that finish a task (the
observation stream ending or its task dying, a reconnect body completing
or being torn down). -/
inductive CoordStep (raises : Nat → Bool) : Coordinator → Coordinator → Prop
  | add (c : Coordinator) (cb : Nat) :
      CoordStep raises c (asyncAddListener c cb)
  | remove (c : Coordinator) (cb : Nat) (c2 : Coordinator) :
      asyncRemoveListener c cb = .ok c2 → CoordStep raises c c2
  | observe (c : Coordinator) (snap : Status) :
      CoordStep raises c (observeStep raises c snap).1
  | obsEnd (c : Coordinator) (t : Nat) :
      CoordStep raises c { c with obsActive := c.obsActive.erase t }
  | recEnd (c : Coordinator) (t : Nat) :
      CoordStep raises c { c with recActive := c.recActive.erase t }
  | reconnectCall (c : Coordinator) :
      CoordStep raises c (reconnect c)
  | reconnectDone (c : Coordinator) :
      CoordStep raises c (reconnectBodySuccess c)
  | shut (c : Coordinator) :
      CoordStep raises c (shutdown c)

/-- The states a coordinator can reach from construction. -/
def Reachable (raises : Nat → Bool) (st : Status) (c : Coordinator) : Prop :=
  Relation.ReflTransGen (CoordStep raises) (initialCoordinator st) c

/-- The active tasks of one kind are at most the single one the
corresponding coordinator field stores. -/
def ledgerOk (field : Option Nat) (active : List Nat) : Prop :=
  match field with
  | some t => active = [] ∨ active = [t]
  | none => active = []

instance (field : Option Nat) (active : List Nat) : Decidable (ledgerOk field active) := by
  unfold ledgerOk
  match field with
  | some t => exact inferInstance
  | none => exact inferInstance

/-- A stored task identifier is below the fresh-identifier counter. -/
def below (field : Option Nat) (n : Nat) : Prop :=
  match field with
  | some t => t < n
  | none => True

instance (field : Option Nat) (n : Nat) : Decidable (below field n) := by
  unfold below
  match field with
  | some t => exact inferInstance
  | none => exact inferInstance

/-- Task-ledger invariant: the active observation tasks are at most the
one the `_task` field stores, likewise for reconnect tasks, and stored
task identifiers are below the fresh-identifier counter. -/
def TaskInv (c : Coordinator) : Prop :=
  ledgerOk c.task c.obsActive ∧ ledgerOk c.reconnectTask c.recActive ∧
  below c.task c.nextTask ∧ below c.reconnectTask c.nextTask

/-- A coordinator with two listeners registered (callbacks 0 and 1),
holding the snapshot from the spec's §8 scenario. -/
def twoListenerCoordinator : Coordinator :=
  asyncAddListener (asyncAddListener (initialCoordinator [("pwr", Val.s "1")]) 0) 1

/-- A fan entity with one preset mode and one speed, with its update
callback registered with the coordinator under identifier 0. -/
def exFan : FanEntity where
  keyPower := "pwr"
  statePowerOn := Val.s "1"
  statePowerOff := Val.s "0"
  availablePresetModes := [("auto", [("mode", Val.s "P")])]
  availableSpeeds := [("speed 1", [("mode", Val.s "M"), ("om", Val.s "1")])]
  updateCallback := 0

/-- The external `percentage_to_ordered_list_item` helper resolved on the
one-speed table of `exFan`. -/
def exSpeedOf : Nat → String := fun _ => "speed 1"

/-- A coordinator holding the entity's update callback (0) and one further
listener (1). -/
def exCoordC2 : Coordinator :=
  asyncAddListener
    (asyncAddListener (initialCoordinator [("mode", Val.s "P"), ("om", Val.s "0")]) 0) 1

theorem dget_dset_self (st : Status) (k : String) (v : Val) :
    dget (dset st k v) k = some v := by
  induction st with
  | nil => simp [dset, dget]
  | cons kv rest ih =>
    obtain ⟨k2, v2⟩ := kv
    by_cases h : k2 = k
    · simp [dset, dget, h]
    · simp [dset, dget, h, ih]

theorem dget_dset_ne (st : Status) (k2 k : String) (v : Val) (hne : k2 ≠ k) :
    dget (dset st k2 v) k = dget st k := by
  induction st with
  | nil => simp [dset, dget, hne]
  | cons kv rest ih =>
    obtain ⟨k3, v3⟩ := kv
    by_cases h : k3 = k2
    · simp [dset, dget, h, hne]
    · simp [dset, dget, h, ih]

theorem dupdate_cons (st : Status) (kv : String × Val) (rest : Status) :
    dupdate st (kv :: rest) = dupdate (dset st kv.1 kv.2) rest := rfl

theorem dget_dupdate_nmem (patch st : Status) (k : String)
    (h : k ∉ patch.map Prod.fst) :
    dget (dupdate st patch) k = dget st k := by
  induction patch generalizing st with
  | nil => rfl
  | cons kv rest ih =>
    simp only [List.map_cons, List.mem_cons, not_or] at h
    rw [dupdate_cons, ih _ h.2, dget_dset_ne _ _ _ _ (fun he => h.1 he.symm)]

theorem dget_dupdate_mem (patch st : Status) (kv : String × Val)
    (hnd : (patch.map Prod.fst).Nodup) (hmem : kv ∈ patch) :
    dget (dupdate st patch) kv.1 = some kv.2 := by
  induction patch generalizing st with
  | nil => cases hmem
  | cons p rest ih =>
    simp only [List.map_cons, List.nodup_cons] at hnd
    rcases List.mem_cons.mp hmem with h | h
    · subst h
      rw [dupdate_cons, dget_dupdate_nmem _ _ _ hnd.1, dget_dset_self]
    · rw [dupdate_cons]
      exact ih _ hnd.2 h

theorem startObserving_task (c : Coordinator) : (startObserving c).task.isSome = true := by
  cases hc : c.task <;> simp [startObserving, hc]

theorem startObserving_listeners (c : Coordinator) :
    (startObserving c).listeners = c.listeners := by
  cases hc : c.task <;> simp [startObserving, hc]

theorem ledgerOk_erase (f : Option Nat) (a : List Nat) (t : Nat) (h : ledgerOk f a) :
    ledgerOk f (a.erase t) := by
  unfold ledgerOk at *
  rcases f with _ | u
  · simp [h]
  · rcases h with h | h
    · simp [h]
    · subst h
      by_cases ht : u = t
      · subst ht
        simp [List.erase_cons]
      · right
        simp [List.erase_cons, ht]

theorem fanOut_no_raise (raises : Nat → Bool) (snap : Status) (l : List Nat)
    (h : ∀ cb ∈ l, raises cb = false) :
    fanOut raises snap l = (l.map (fun cb => (cb, snap)), false) := by
  induction l with
  | nil => rfl
  | cons cb rest ih =>
    have hcb := h cb (List.mem_cons_self cb rest)
    simp only [fanOut, hcb, Bool.false_eq_true, if_false, List.map_cons]
    rw [ih (fun x hx => h x (List.mem_cons_of_mem _ hx))]

theorem below_mono (f : Option Nat) (m n : Nat) (h : below f m) (hmn : m ≤ n) :
    below f n := by
  unfold below at *
  rcases f with _ | t
  · trivial
  · omega

theorem taskInv_startObserving (c : Coordinator) (h : TaskInv c) :
    TaskInv (startObserving c) := by
  obtain ⟨hobs, hrec, ht, hrt⟩ := h
  rcases hc : c.task with _ | t
  · rw [hc] at hobs
    unfold ledgerOk at hobs
    refine ⟨?_, ?_, ?_, ?_⟩ <;>
      simp only [startObserving, hc, TaskInv, ledgerOk, below]
    · right
      rw [hobs, List.nil_append]
    · exact hrec
    · omega
    · exact below_mono _ _ _ hrt (Nat.le_succ _)
  · rw [hc] at hobs
    unfold ledgerOk at hobs
    have herase : c.obsActive.erase t = [] := by
      rcases hobs with hobs | hobs <;> simp [hobs]
    refine ⟨?_, ?_, ?_, ?_⟩ <;>
      simp only [startObserving, hc, TaskInv, ledgerOk, below]
    · right
      rw [herase, List.nil_append]
    · exact hrec
    · omega
    · exact below_mono _ _ _ hrt (Nat.le_succ _)

theorem taskInv_fields (c : Coordinator) (h : TaskInv c)
    (st : Status) (l : List Nat) (tm : Timer) (co : Bool) :
    TaskInv { c with status := st, listeners := l, timerDisconnected := tm,
                     clientOpen := co } := h

theorem taskInv_addListener (c : Coordinator) (cb : Nat) (h : TaskInv c) :
    TaskInv (asyncAddListener c cb) := by
  simp only [asyncAddListener]
  split
  · exact taskInv_startObserving _ h
  · exact h

theorem taskInv_removeListener (c : Coordinator) (cb : Nat) (c2 : Coordinator)
    (hrm : asyncRemoveListener c cb = .ok c2) (h : TaskInv c) : TaskInv c2 := by
  obtain ⟨hobs, hrec, ht, hrt⟩ := h
  simp only [asyncRemoveListener] at hrm
  split at hrm
  · split at hrm
    · split at hrm
      next t hts =>
        cases hrm
        rw [hts] at hobs
        unfold ledgerOk at hobs
        have herase : c.obsActive.erase t = [] := by
          rcases hobs with hobs | hobs <;> simp [hobs]
        exact ⟨by simp [ledgerOk, herase], hrec, trivial, hrt⟩
      next hts =>
        cases hrm
        rw [hts] at hobs
        exact ⟨by simpa [ledgerOk, hts] using hobs, hrec, by simp [below, hts], hrt⟩
    · cases hrm
      exact ⟨hobs, hrec, ht, hrt⟩
  · cases hrm

theorem taskInv_observeStep (raises : Nat → Bool) (c : Coordinator) (snap : Status)
    (h : TaskInv c) : TaskInv (observeStep raises c snap).1 := by
  obtain ⟨hobs, hrec, ht, hrt⟩ := h
  simp only [observeStep]
  split
  · split
    next t hts =>
      rw [hts] at hobs
      unfold ledgerOk at hobs
      have herase : c.obsActive.erase t = [] := by
        rcases hobs with hobs | hobs <;> simp [hobs]
      exact ⟨by simp [ledgerOk, hts, herase], hrec, ht, hrt⟩
    next hts =>
      exact ⟨hobs, hrec, ht, hrt⟩
  · exact ⟨hobs, hrec, ht, hrt⟩

theorem taskInv_reconnect (c : Coordinator) (h : TaskInv c) :
    TaskInv (reconnect c) := by
  obtain ⟨hobs, hrec, ht, hrt⟩ := h
  rcases hc : c.reconnectTask with _ | t
  · rw [hc] at hrec
    unfold ledgerOk at hrec
    refine ⟨?_, ?_, ?_, ?_⟩ <;>
      simp only [reconnect, hc, TaskInv, ledgerOk, below]
    · exact hobs
    · right
      rw [hrec, List.nil_append]
    · exact below_mono _ _ _ ht (Nat.le_succ _)
    · omega
  · rw [hc] at hrec
    unfold ledgerOk at hrec
    have herase : c.recActive.erase t = [] := by
      rcases hrec with hrec | hrec <;> simp [hrec]
    refine ⟨?_, ?_, ?_, ?_⟩ <;>
      simp only [reconnect, hc, TaskInv, ledgerOk, below]
    · exact hobs
    · right
      rw [herase, List.nil_append]
    · exact below_mono _ _ _ ht (Nat.le_succ _)
    · omega

theorem taskInv_erase_obs (c : Coordinator) (t : Nat) (h : TaskInv c) :
    TaskInv { c with obsActive := c.obsActive.erase t } := by
  obtain ⟨hobs, hrec, ht, hrt⟩ := h
  exact ⟨ledgerOk_erase _ _ _ hobs, hrec, ht, hrt⟩

theorem taskInv_erase_rec (c : Coordinator) (t : Nat) (h : TaskInv c) :
    TaskInv { c with recActive := c.recActive.erase t } := by
  obtain ⟨hobs, hrec, ht, hrt⟩ := h
  exact ⟨hobs, ledgerOk_erase _ _ _ hrec, ht, hrt⟩

theorem taskInv_reconnectBodySuccess (c : Coordinator) (h : TaskInv c) :
    TaskInv (reconnectBodySuccess c) := by
  have h1 : TaskInv (startObserving { c with clientOpen := true }) :=
    taskInv_startObserving _ h
  simp only [reconnectBodySuccess]
  split
  next t hts =>
    exact taskInv_erase_rec _ _ h1
  next hts =>
    exact h1

theorem taskInv_shutdown (c : Coordinator) (h : TaskInv c) :
    TaskInv (shutdown c) := by
  obtain ⟨hobs, hrec, ht, hrt⟩ := h
  simp only [shutdown]
  split
  next t hts =>
    exact ⟨hobs, ledgerOk_erase _ _ _ hrec, ht, hrt⟩
  next hts =>
    exact ⟨hobs, hrec, ht, hrt⟩

theorem taskInv_step (raises : Nat → Bool) (c c2 : Coordinator)
    (hs : CoordStep raises c c2) (h : TaskInv c) : TaskInv c2 := by
  cases hs with
  | add cb => exact taskInv_addListener _ cb h
  | remove cb c3 hrm => exact taskInv_removeListener _ cb _ hrm h
  | observe snap => exact taskInv_observeStep raises _ snap h
  | obsEnd t => exact taskInv_erase_obs _ t h
  | recEnd t => exact taskInv_erase_rec _ t h
  | reconnectCall => exact taskInv_reconnect _ h
  | reconnectDone => exact taskInv_reconnectBodySuccess _ h
  | shut => exact taskInv_shutdown _ h

theorem taskInv_initial (st : Status) : TaskInv (initialCoordinator st) :=
  ⟨rfl, rfl, trivial, trivial⟩

theorem taskInv_reachable (raises : Nat → Bool) (st : Status) (c : Coordinator)
    (h : Reachable raises st c) : TaskInv c := by
  unfold Reachable at h
  induction h with
  | refl => exact taskInv_initial st
  | tail _ hbc ih => exact taskInv_step raises _ _ hbc ih

/-- Registry invariant: the `_task` field is occupied exactly when the
listener registry is non-empty. -/
def regInv (c : Coordinator) : Prop :=
  c.task.isSome = !c.listeners.isEmpty

theorem regInv_applyRegOp (c : Coordinator) (op : RegOp) (h : regInv c) :
    regInv (applyRegOp c op) := by
  unfold regInv at *
  cases op with
  | add cb =>
    simp only [applyRegOp, asyncAddListener]
    split
    · rw [startObserving_task, startObserving_listeners]
      simp
    next hne =>
      have hf : c.listeners.isEmpty = false := by simpa using hne
      simp only []
      rw [h, hf]
      have hf2 : (c.listeners ++ [cb]).isEmpty = false := by
        cases hl : c.listeners with
        | nil => rw [hl] at hf; cases hf
        | cons a l => rfl
      rw [hf2]
  | remove cb =>
    simp only [applyRegOp]
    split
    next c2 hrm =>
      simp only [asyncRemoveListener] at hrm
      split at hrm
      next hct =>
        split at hrm
        next he =>
          split at hrm
          next t hts =>
            cases hrm
            simp only []
            rw [he]
            simp
          next hts =>
            cases hrm
            simp only []
            rw [hts, he]
            rfl
        next he =>
          cases hrm
          simp only []
          have hne : c.listeners.isEmpty = false := by
            cases hl : c.listeners with
            | nil => rw [hl] at hct; cases hct
            | cons a l => rfl
          rw [h, hne]
          simp only [Bool.not_false]
          cases hb : (c.listeners.erase cb).isEmpty with
          | false => rfl
          | true => exact absurd hb (by simp [he])
      next hct =>
        cases hrm
    next e hrm =>
      exact h

theorem regInv_runRegOps (c : Coordinator) (ops : List RegOp) (h : regInv c) :
    regInv (runRegOps c ops) := by
  induction ops generalizing c with
  | nil => exact h
  | cons op rest ih => exact ih (applyRegOp c op) (regInv_applyRegOp c op h)

/-- C5: for all sequences of addListener/removeListener calls starting from
a fresh Coordinator, the observation-loop task is active if and only if the
listener registry is non-empty; adding the first listener starts the loop
before returning, and removing the last listener cancels it. -/
theorem observation_loop_active_iff_listeners (st : Status) (ops : List RegOp)
    (c : Coordinator) (cb : Nat) :
    ((runRegOps (initialCoordinator st) ops).task.isSome = true ↔
      (runRegOps (initialCoordinator st) ops).listeners ≠ []) ∧
    (c.listeners = [] → (asyncAddListener c cb).task.isSome = true) ∧
    (c.listeners = [cb] →
      (applyRegOp c (RegOp.remove cb)).task = none ∧
      (applyRegOp c (RegOp.remove cb)).listeners = []) := by
  refine ⟨?_, ?_, ?_⟩
  · have h := regInv_runRegOps (initialCoordinator st) ops rfl
    unfold regInv at h
    rw [h]
    cases hl : (runRegOps (initialCoordinator st) ops).listeners with
    | nil => simp
    | cons a l => simp
  · intro hl
    simp only [asyncAddListener, hl]
    simp only [List.isEmpty_nil, if_true]
    exact startObserving_task _
  · intro hl
    cases ht : c.task with
    | some t => simp [applyRegOp, asyncRemoveListener, hl, ht]
    | none => simp [applyRegOp, asyncRemoveListener, hl, ht]

/-- Witness for the C5 theorem: one listener added to a fresh coordinator
starts the loop, and removing it again cancels the loop. -/
theorem observation_loop_active_iff_listeners_witness :
    ((asyncAddListener (initialCoordinator []) 0).listeners = [0]) ∧
    (asyncAddListener (initialCoordinator []) 0).task.isSome = true ∧
    (applyRegOp (asyncAddListener (initialCoordinator []) 0) (RegOp.remove 0)).task = none ∧
    (applyRegOp (asyncAddListener (initialCoordinator []) 0) (RegOp.remove 0)).listeners = [] :=
  ⟨rfl,
   (observation_loop_active_iff_listeners [] [] (initialCoordinator []) 0).2.1 rfl,
   ((observation_loop_active_iff_listeners [] [] (asyncAddListener (initialCoordinator []) 0)
      0).2.2 rfl).1,
   ((observation_loop_active_iff_listeners [] [] (asyncAddListener (initialCoordinator []) 0)
      0).2.2 rfl).2⟩

/-- A coordinator that has one listener and an in-flight reconnect task,
reached by adding listener 0 to a fresh coordinator and calling
`reconnect`. -/
def reconnectedCoordinator : Coordinator :=
  reconnect (asyncAddListener (initialCoordinator []) 0)

/-- C6: in every reachable state of a Coordinator instance, at most one
observation task and at most one reconnect task are active concurrently;
calling `reconnect` leaves no previously stored reconnect task active
before the new one is created, and `_start_observing` leaves no previously
stored observation task active before the new one is created. -/
theorem at_most_one_active_task (raises : Nat → Bool) (st : Status) (c : Coordinator)
    (h : Reachable raises st c) :
    c.obsActive.length ≤ 1 ∧ c.recActive.length ≤ 1 ∧
    (∀ t, c.reconnectTask = some t → t ∉ (reconnect c).recActive) ∧
    (∀ t, c.task = some t → t ∉ (startObserving c).obsActive) := by
  obtain ⟨hobs, hrec, ht, hrt⟩ := taskInv_reachable raises st c h
  refine ⟨?_, ?_, ?_, ?_⟩
  · rcases hf : c.task with _ | t
    · rw [hf] at hobs
      unfold ledgerOk at hobs
      simp [hobs]
    · rw [hf] at hobs
      unfold ledgerOk at hobs
      rcases hobs with h1 | h1 <;> simp [h1]
  · rcases hf : c.reconnectTask with _ | t
    · rw [hf] at hrec
      unfold ledgerOk at hrec
      simp [hrec]
    · rw [hf] at hrec
      unfold ledgerOk at hrec
      rcases hrec with h1 | h1 <;> simp [h1]
  · intro t hts
    rw [hts] at hrec
    unfold ledgerOk at hrec
    have hlt : t < c.nextTask := by
      rw [hts] at hrt
      exact hrt
    have herase : c.recActive.erase t = [] := by
      rcases hrec with h1 | h1 <;> simp [h1]
    simp only [reconnect, hts, herase, List.nil_append, List.mem_singleton]
    omega
  · intro t hts
    rw [hts] at hobs
    unfold ledgerOk at hobs
    have hlt : t < c.nextTask := by
      rw [hts] at ht
      exact ht
    have herase : c.obsActive.erase t = [] := by
      rcases hobs with h1 | h1 <;> simp [h1]
    simp only [startObserving, hts, herase, List.nil_append, List.mem_singleton]
    omega

/-- Witness for the C6 theorem at a coordinator with an observation task
and a reconnect task in flight. -/
theorem at_most_one_active_task_witness :
    reconnectedCoordinator.obsActive.length ≤ 1 ∧
    reconnectedCoordinator.recActive.length ≤ 1 ∧
    (1 : Nat) ∉ (reconnect reconnectedCoordinator).recActive ∧
    (0 : Nat) ∉ (startObserving reconnectedCoordinator).obsActive := by
  have h := at_most_one_active_task (fun _ => false) [] reconnectedCoordinator
    (Relation.ReflTransGen.tail
      (Relation.ReflTransGen.single (CoordStep.add (initialCoordinator []) 0))
      (CoordStep.reconnectCall (asyncAddListener (initialCoordinator []) 0)))
  exact ⟨h.1, h.2.1, h.2.2.1 1 rfl, h.2.2.2 0 rfl⟩

/-- C8: for every snapshot received by the observation loop, the stored
status reference is replaced first, and then (when no listener raises)
every currently registered listener is invoked exactly once, in
registration order, each invocation seeing the new snapshot; no exception
escapes and the task keeps running (awaiting the next snapshot). -/
theorem observe_replaces_then_notifies (raises : Nat → Bool) (c : Coordinator)
    (snap : Status) (h : ∀ cb ∈ c.listeners, raises cb = false) :
    (observeStep raises c snap).1.status = snap ∧
    (observeStep raises c snap).2.1 = c.listeners.map (fun cb => (cb, snap)) ∧
    (observeStep raises c snap).2.2 = false ∧
    (observeStep raises c snap).1.listeners = c.listeners ∧
    (observeStep raises c snap).1.task = c.task := by
  simp only [observeStep]
  rw [show ({ c with status := snap } : Coordinator).listeners = c.listeners from rfl,
      fanOut_no_raise raises snap c.listeners h]
  simp

/-- Witness for the C8 theorem: the spec's §8 scenario, a coordinator with
listeners 0 and 1 receiving a fresh snapshot. -/
theorem observe_replaces_then_notifies_witness :
    (observeStep (fun _ => false) twoListenerCoordinator [("pwr", Val.s "0")]).1.status
        = [("pwr", Val.s "0")] ∧
    (observeStep (fun _ => false) twoListenerCoordinator [("pwr", Val.s "0")]).2.1
        = [(0, [("pwr", Val.s "0")]), (1, [("pwr", Val.s "0")])] ∧
    (observeStep (fun _ => false) twoListenerCoordinator [("pwr", Val.s "0")]).2.2 = false := by
  have h := observe_replaces_then_notifies (fun _ => false) twoListenerCoordinator
    [("pwr", Val.s "0")] (fun cb _ => rfl)
  refine ⟨h.1, ?_, h.2.2.1⟩
  rw [h.2.1]
  rfl

/-- C3 evaluated at the failing input: with listeners 0 and 1 registered
and listener 0 raising, the fan-out invokes only listener 0, the exception
escapes the loop (so listener 1 is never notified), and the observation
task is no longer active afterwards. -/
theorem listener_fault_aborts_fanout :
    (observeStep (fun cb => cb == 0) twoListenerCoordinator [("pwr", Val.s "0")]).2.1
        = [(0, [("pwr", Val.s "0")])] ∧
    (observeStep (fun cb => cb == 0) twoListenerCoordinator [("pwr", Val.s "0")]).2.2
        = true ∧
    (observeStep (fun cb => cb == 0) twoListenerCoordinator
        [("pwr", Val.s "0")]).1.obsActive = [] := by
  refine ⟨rfl, rfl, rfl⟩

/-- C1 evaluated at the failing input: receiving a status snapshot leaves
the disconnection watchdog exactly as it was (the reset call is commented
out in `_async_observe_status`), and the watchdog is not running in the
first place (`autostart=False`, and the reset in `_start_observing` is
commented out as well), so its `reconnect` callback can never fire. -/
theorem watchdog_never_reset :
    (observeStep (fun _ => false) twoListenerCoordinator [("pwr", Val.s "0")]).1.timerDisconnected
        = twoListenerCoordinator.timerDisconnected ∧
    twoListenerCoordinator.timerDisconnected.running = false ∧
    (initialCoordinator []).timerDisconnected.running = false := by
  refine ⟨rfl, rfl, rfl⟩

/-- C4 as stated fails on the code: removing a handle that was never added
raises `ValueError` (Python `list.remove`). -/
theorem remove_absent_listener_raises :
    asyncRemoveListener (initialCoordinator []) 0 = .error "ValueError" := rfl

/-- C4 amended: removing a handle that is not currently present raises
`ValueError`, and the raised error leaves the coordinator (registry and
task field included) unchanged. -/
theorem remove_absent_listener_state (c : Coordinator) (cb : Nat)
    (h : c.listeners.contains cb = false) :
    asyncRemoveListener c cb = .error "ValueError" ∧
    applyRegOp c (RegOp.remove cb) = c := by
  have h1 : asyncRemoveListener c cb = .error "ValueError" := by
    simp only [asyncRemoveListener, h]
    rfl
  refine ⟨h1, ?_⟩
  simp only [applyRegOp, h1]

/-- Witness for the C4 amended theorem: a handle never added to a fresh
coordinator. -/
theorem remove_absent_listener_state_witness :
    (initialCoordinator []).listeners.contains 0 = false ∧
    (asyncRemoveListener (initialCoordinator []) 0 = .error "ValueError" ∧
      applyRegOp (initialCoordinator []) (RegOp.remove 0) = initialCoordinator []) :=
  ⟨rfl, remove_absent_listener_state (initialCoordinator []) 0 rfl⟩

/-- C2 as stated fails on the code, at concrete inputs: a successful
`async_set_percentage(50)` leaves the cached snapshot without the written
values (key "om" still reads "0", not the written "1"), and a successful
`async_turn_off` invokes only the issuing entity's own update callback (0)
although listeners 0 and 1 are both registered. -/
theorem write_success_claim_fails :
    (asyncSetPercentage .ok exSpeedOf exFan exCoordC2 50 = .ok (exCoordC2, [0])) ∧
    dget exCoordC2.status "om" = some (Val.s "0") ∧
    exCoordC2.listeners = [0, 1] ∧
    (asyncTurnOff .ok exFan exCoordC2 =
      .ok ({ exCoordC2 with status := dset exCoordC2.status "pwr" (Val.s "0") }, [0])) := by
  refine ⟨rfl, rfl, rfl, rfl⟩

/-- C2 amended: for `async_turn_off`, the power path of `async_turn_on` and
`async_set_preset_mode` (known non-empty pattern) completing successfully,
the cached snapshot immediately contains the written value(s); a nonzero
`async_set_percentage` (known non-empty pattern) forwards the write but
leaves the snapshot unchanged; in every case exactly the issuing entity's
own update callback is invoked, not every registered listener. -/
theorem write_success_updates_snapshot (e : FanEntity) (c : Coordinator)
    (speedOf : Nat → String) (preset : String) (pct : Nat) (pat spat : Status)
    (hpreset : dlookup e.availablePresetModes preset = some pat)
    (hne : pat.isEmpty = false)
    (hnd : (pat.map Prod.fst).Nodup)
    (hpct : pct ≠ 0)
    (hspeed : dlookup e.availableSpeeds (speedOf pct) = some spat)
    (hsne : spat.isEmpty = false) :
    (asyncTurnOff .ok e c =
      .ok ({ c with status := dset c.status e.keyPower e.statePowerOff },
           [e.updateCallback])) ∧
    dget (dset c.status e.keyPower e.statePowerOff) e.keyPower = some e.statePowerOff ∧
    (asyncTurnOn .ok speedOf e c none none =
      .ok ({ c with status := dset c.status e.keyPower e.statePowerOn },
           [e.updateCallback])) ∧
    dget (dset c.status e.keyPower e.statePowerOn) e.keyPower = some e.statePowerOn ∧
    (asyncSetPresetMode .ok e c preset =
      .ok ({ c with status := dupdate c.status pat }, [e.updateCallback])) ∧
    (∀ kv ∈ pat, dget (dupdate c.status pat) kv.1 = some kv.2) ∧
    (asyncSetPercentage .ok speedOf e c pct = .ok (c, [e.updateCallback])) := by
  refine ⟨rfl, dget_dset_self _ _ _, rfl, dget_dset_self _ _ _, ?_, ?_, ?_⟩
  · simp only [asyncSetPresetMode, hpreset, hne]
    rfl
  · intro kv hkv
    exact dget_dupdate_mem pat c.status kv hnd hkv
  · simp only [asyncSetPercentage, hpct, if_false, hspeed, hsne]
    rfl

/-- Witness for the C2 amended theorem at the concrete fan entity. -/
theorem write_success_updates_snapshot_witness :
    dlookup exFan.availablePresetModes "auto" = some [("mode", Val.s "P")] ∧
    ([("mode", Val.s "P")] : Status).isEmpty = false ∧
    (50 : Nat) ≠ 0 ∧
    dlookup exFan.availableSpeeds (exSpeedOf 50)
        = some [("mode", Val.s "M"), ("om", Val.s "1")] ∧
    (asyncSetPresetMode .ok exFan exCoordC2 "auto" =
      .ok ({ exCoordC2 with
              status := dupdate exCoordC2.status [("mode", Val.s "P")] }, [0])) ∧
    dget (dupdate exCoordC2.status [("mode", Val.s "P")]) "mode" = some (Val.s "P") ∧
    (asyncSetPercentage .ok exSpeedOf exFan exCoordC2 50 = .ok (exCoordC2, [0])) := by
  have h := write_success_updates_snapshot exFan exCoordC2 exSpeedOf "auto" 50
    [("mode", Val.s "P")] [("mode", Val.s "M"), ("om", Val.s "1")]
    rfl rfl (by decide) (by decide) rfl rfl
  exact ⟨rfl, rfl, by decide, rfl, h.2.2.2.2.1,
    h.2.2.2.2.2.1 ("mode", Val.s "P") (by decide), h.2.2.2.2.2.2⟩

/-- C7: when the underlying Device Client write fails, every write command
propagates the error to the caller, and the caller's coordinator state —
in particular the cached status snapshot — is left exactly as it was. -/
theorem write_failure_propagates (e : FanEntity) (c : Coordinator)
    (speedOf : Nat → String) (preset : String) (pct : Nat) (pat spat : Status)
    (hpreset : dlookup e.availablePresetModes preset = some pat)
    (hne : pat.isEmpty = false)
    (hpct : pct ≠ 0)
    (hspeed : dlookup e.availableSpeeds (speedOf pct) = some spat)
    (hsne : spat.isEmpty = false) :
    asyncTurnOn .fail speedOf e c none none = .error "write failed" ∧
    asyncTurnOff .fail e c = .error "write failed" ∧
    asyncSetPresetMode .fail e c preset = .error "write failed" ∧
    asyncSetPercentage .fail speedOf e c pct = .error "write failed" ∧
    fanOpState c (asyncTurnOn .fail speedOf e c none none) = c ∧
    fanOpState c (asyncTurnOff .fail e c) = c ∧
    fanOpState c (asyncSetPresetMode .fail e c preset) = c ∧
    fanOpState c (asyncSetPercentage .fail speedOf e c pct) = c := by
  have h1 : asyncTurnOn .fail speedOf e c none none = .error "write failed" := rfl
  have h2 : asyncTurnOff .fail e c = .error "write failed" := rfl
  have h3 : asyncSetPresetMode .fail e c preset = .error "write failed" := by
    simp only [asyncSetPresetMode, hpreset, hne]
    rfl
  have h4 : asyncSetPercentage .fail speedOf e c pct = .error "write failed" := by
    simp only [asyncSetPercentage, hpct, if_false, hspeed, hsne]
    rfl
  refine ⟨h1, h2, h3, h4, ?_, ?_, ?_, ?_⟩ <;>
    simp only [h1, h2, h3, h4, fanOpState]

/-- Witness for the C7 theorem at the concrete fan entity. -/
theorem write_failure_propagates_witness :
    dlookup exFan.availablePresetModes "auto" = some [("mode", Val.s "P")] ∧
    (50 : Nat) ≠ 0 ∧
    dlookup exFan.availableSpeeds (exSpeedOf 50)
        = some [("mode", Val.s "M"), ("om", Val.s "1")] ∧
    asyncSetPresetMode .fail exFan exCoordC2 "auto" = .error "write failed" ∧
    asyncSetPercentage .fail exSpeedOf exFan exCoordC2 50 = .error "write failed" ∧
    fanOpState exCoordC2 (asyncTurnOff .fail exFan exCoordC2) = exCoordC2 := by
  have h := write_failure_propagates exFan exCoordC2 exSpeedOf "auto" 50
    [("mode", Val.s "P")] [("mode", Val.s "M"), ("om", Val.s "1")]
    rfl rfl (by decide) rfl rfl
  exact ⟨rfl, by decide, rfl, h.2.2.1, h.2.2.2.1, h.2.2.2.2.2.1⟩

/-- C9: initial session creation in `async_setup_entry` is guarded by an
outer timeout of 25 time units; on expiry the failure is surfaced to the
caller as a setup error (`ConfigEntryNotReady`), and the setup path makes
exactly one creation attempt (no automatic retry). -/
theorem setup_timeout_propagates (d : Nat) (hd : SETUP_TIMEOUT < d) :
    SETUP_TIMEOUT = 25 ∧
    (asyncSetupEntryConnect (some d)).1 = .error "ConfigEntryNotReady" ∧
    (asyncSetupEntryConnect none).1 = .error "ConfigEntryNotReady" ∧
    (∀ o, (asyncSetupEntryConnect o).2 = 1) := by
  refine ⟨rfl, ?_, rfl, ?_⟩
  · simp only [asyncSetupEntryConnect]
    rw [if_neg (by omega)]
  · intro o
    rcases o with _ | d2
    · rfl
    · simp only [asyncSetupEntryConnect]
      split <;> rfl

/-- Witness for the C9 theorem: creation taking 26 time units times out
and is surfaced as a setup error after a single attempt. -/
theorem setup_timeout_propagates_witness :
    SETUP_TIMEOUT < 26 ∧
    (asyncSetupEntryConnect (some 26)).1 = .error "ConfigEntryNotReady" ∧
    (asyncSetupEntryConnect (some 26)).2 = 1 :=
  ⟨by decide,
   (setup_timeout_propagates 26 (by decide)).2.1,
   (setup_timeout_propagates 26 (by decide)).2.2.2 (some 26)⟩

/-- C10: `shutdown` cancels the in-flight reconnect task (if any) and the
watchdog timer and closes the client, while leaving the observation task
field, the active observation task, the listener registry, the status
snapshot and even the reconnect task field itself unchanged. -/
theorem shutdown_frame (c : Coordinator) (t : Nat) :
    (shutdown c).task = c.task ∧
    (shutdown c).listeners = c.listeners ∧
    (shutdown c).obsActive = c.obsActive ∧
    (shutdown c).status = c.status ∧
    (shutdown c).reconnectTask = c.reconnectTask ∧
    (shutdown c).timerDisconnected.running = false ∧
    (shutdown c).clientOpen = false ∧
    (c.reconnectTask = some t → (shutdown c).recActive = c.recActive.erase t) ∧
    (c.reconnectTask = none → (shutdown c).recActive = c.recActive) := by
  rcases hf : c.reconnectTask with _ | u
  · simp [shutdown, hf, Timer.cancel]
  · refine ⟨?_, ?_, ?_, ?_, ?_, ?_, ?_, ?_, ?_⟩ <;>
      simp only [shutdown, hf, Timer.cancel]
    · intro ht
      cases ht
      rfl
    · intro ht
      cases ht

/-- Witness for the C10 theorem at a coordinator with a listener, an
observation task and an in-flight reconnect task. -/
theorem shutdown_frame_witness :
    (shutdown reconnectedCoordinator).task = reconnectedCoordinator.task ∧
    (shutdown reconnectedCoordinator).listeners = reconnectedCoordinator.listeners ∧
    (shutdown reconnectedCoordinator).obsActive = reconnectedCoordinator.obsActive ∧
    (shutdown reconnectedCoordinator).timerDisconnected.running = false ∧
    (shutdown reconnectedCoordinator).clientOpen = false ∧
    (shutdown reconnectedCoordinator).recActive
        = reconnectedCoordinator.recActive.erase 1 := by
  have h := shutdown_frame reconnectedCoordinator 1
  exact ⟨h.1, h.2.1, h.2.2.1, h.2.2.2.2.2.1, h.2.2.2.2.2.2.1, h.2.2.2.2.2.2.2.1 rfl⟩
